import Mathlib

/-!
Shallow embedding of the Remix core server request pipeline
(src/packages/core/server.ts) and the collaborator contracts it consumes.

The source file under verification is `server.ts`.  Its collaborators
(`loader.ts`, `match.ts`, `entry.ts`, `platform.ts`, `config.ts`,
`requireCache.ts`) are not part of the source tree; where a claim depends on
one of them, the corresponding definition is modelled from the specification
and carries a doc comment starting with `Modelled from the spec:`.

Conventions of the embedding:
- JavaScript objects used as string-keyed maps become association lists
  (`List (String × Option Nat)`), where the stored `Option Nat` models a
  possibly-`undefined` stored value and an absent key reads as `undefined`.
- Promises are collapsed to values; the development-mode initialization slot
  becomes explicit state passing (`DevState`).
- The external render hook `serverEntryModule.default(req, statusCode, ctx)`
  is modelled by returning the pair of arguments it would receive
  (`HtmlResult.render statusCode ctx`).
-/

namespace Remix

/-- An inbound HTTP request; only the raw URL string is consumed by this layer. -/
structure Request where
  url : String
deriving DecidableEq

/-- Splits a character list at the first occurrence of `c`; the second
component keeps the marker character, mirroring `String.indexOf` plus
`substr` as used by the `history` package's `parsePath`. -/
def breakAt (c : Char) : List Char → Option (List Char × List Char)
  | [] => none
  | x :: xs =>
    if x = c then some ([], x :: xs)
    else
      match breakAt c xs with
      | none => none
      | some (a, b) => some (x :: a, b)

/-- Location record as produced by `createLocation` in server.ts: `state`
defaults to null (here `none`) and `key` to `"default"`. -/
structure Location where
  pathname : String
  search : String
  hash : String
  state : Option String
  key : String
deriving DecidableEq

/-- Embedding of `createLocation` (server.ts lines 39-46): parse the raw URL
with the `history` package's `parsePath` (hash suffix first, then search
suffix, both kept with their marker character) and default
`pathname = "/"`, `search = ""`, `hash = ""`. -/
def createLocation (url : String) : Location :=
  let cs := url.data
  let beforeHash := match breakAt '#' cs with | none => cs | some (a, _) => a
  let hashStr := match breakAt '#' cs with | none => "" | some (_, b) => String.mk b
  let beforeQ := match breakAt '?' beforeHash with | none => beforeHash | some (a, _) => a
  let searchStr := match breakAt '?' beforeHash with | none => "" | some (_, b) => String.mk b
  { pathname := if beforeQ.isEmpty then "/" else String.mk beforeQ
    search := searchStr
    hash := hashStr
    state := none
    key := "default" }

/-- Drops the leading question mark of a search string, as `URLSearchParams`
does. -/
def stripQ : List Char → List Char
  | '?' :: rest => rest
  | cs => cs

/-- Form-decoding step of `URLSearchParams`: a plus sign reads as a space.
Percent escapes are not produced by this layer and are left untouched. -/
def plusToSpace (cs : List Char) : List Char :=
  cs.map fun ch => if ch = '+' then ' ' else ch

/-- Splits a character list on a separator, keeping empty segments, like
`String.split` on a single character. -/
def splitOnChar (c : Char) : List Char → List (List Char)
  | [] => [[]]
  | x :: xs =>
    if x = c then [] :: splitOnChar c xs
    else
      match splitOnChar c xs with
      | [] => [[x]]
      | h :: t => (x :: h) :: t

/-- Rejoins segments with a separator, like `String.intercalate` on a single
character. -/
def joinChar (c : Char) : List (List Char) → List Char
  | [] => []
  | [x] => x
  | x :: xs => x ++ c :: joinChar c xs

/-- Splits a search string into its key-value pairs, modelling the platform's
`URLSearchParams` constructor: parts are separated by ampersands, a part
without an equals sign maps to the empty value, empty parts are skipped. -/
def queryPairs (search : String) : List (String × String) :=
  (splitOnChar '&' (stripQ search.data)).filterMap fun part =>
    if part.isEmpty then none
    else
      match splitOnChar '=' part with
      | [] => none
      | k :: rest =>
        some (String.mk (plusToSpace k), String.mk (plusToSpace (joinChar '=' rest)))

/-- Models `new URLSearchParams(search).get(key)`: the value of the first
pair carrying `key`, or null (`none`) when no pair does. -/
def searchGet (search : String) (key : String) : Option String :=
  match (queryPairs search).find? (fun p => p.1 = key) with
  | none => none
  | some p => some p.2

/-- JavaScript truthiness of a nullable string as used by `if (!path)`:
null and the empty string are falsy, every other string is truthy. -/
def isTruthyStr : Option String → Bool
  | none => false
  | some s => !decide (s = "")

/-- Modelled from the spec: the Loader Result Model of `loader.ts` (not under
src/) — a closed variant with four cases, one per matched route
(`Success(data)`, `Redirect(location, httpStatus)`, `Error(error, httpStatus)`,
`ChangeStatusCode(httpStatus)`); each result records the route it came from so
that per-route summaries can be keyed by route id.  Data payloads are opaque
to this layer and modelled as `Option Nat` (with `none` for null). -/
inductive LoaderResult where
  | success (routeId : String) (data : Option Nat)
  | redirect (routeId : String) (location : String) (httpStatus : Nat)
  | error (routeId : String) (message : String) (httpStatus : Nat)
  | changeStatusCode (routeId : String) (httpStatus : Nat)
deriving DecidableEq

/-- Models `result instanceof LoaderResultRedirect`. -/
def LoaderResult.isRedirect : LoaderResult → Bool
  | .redirect _ _ _ => true
  | _ => false

/-- Models `result instanceof LoaderResultError`. -/
def LoaderResult.isError : LoaderResult → Bool
  | .error _ _ _ => true
  | _ => false

/-- Models `result instanceof LoaderResultChangeStatusCode`. -/
def LoaderResult.isChangeStatusCode : LoaderResult → Bool
  | .changeStatusCode _ _ => true
  | _ => false

/-- The `httpStatus` field of a loader result (success carries the default
status 200). -/
def LoaderResult.httpStatusOf : LoaderResult → Nat
  | .success _ _ => 200
  | .redirect _ _ st => st
  | .error _ _ st => st
  | .changeStatusCode _ st => st

/-- The `location` field of a redirect result. -/
def LoaderResult.locationOf : LoaderResult → String
  | .redirect _ loc _ => loc
  | _ => ""

/-- The route id a loader result belongs to. -/
def LoaderResult.routeIdOf : LoaderResult → String
  | .success rid _ => rid
  | .redirect rid _ _ => rid
  | .error rid _ _ => rid
  | .changeStatusCode rid _ => rid

/-- The per-route data payload of a result (`undefined` for non-success
results). -/
def LoaderResult.dataOf : LoaderResult → Option Nat
  | .success _ d => d
  | _ => none

/-- Route definition as carried by matches in server.ts: `path`, `id`,
`component` and a nullable `loader`.  The loader function itself is external;
it is modelled by an identity token (`Option Nat`), enough to express
presence and the diff strategy's "same loader identity" comparison. -/
structure Route where
  path : String
  id : String
  component : String
  loader : Option Nat
deriving DecidableEq

/-- A route match: `pathname`, matched URL `params`, and the `route`. -/
structure RouteMatch where
  pathname : String
  params : List (String × String)
  route : Route
deriving DecidableEq

/-- The synthetic `routes/404` match substituted at server.ts lines 221-232. -/
def synthetic404 (pathname : String) : RouteMatch :=
  { pathname := pathname
    params := []
    route := { path := "*", id := "routes/404", component := "routes/404.js", loader := none } }

/-- The synthetic `routes/500` match substituted at server.ts lines 257-268. -/
def synthetic500 (pathname : String) : RouteMatch :=
  { pathname := pathname
    params := []
    route := { path := "*", id := "routes/500", component := "routes/500.js", loader := none } }

/-- The synthetic `routes/<code>` match substituted at server.ts
lines 277-288 for a status-code override. -/
def syntheticStatusRoute (code : Nat) (pathname : String) : RouteMatch :=
  { pathname := pathname
    params := []
    route := { path := "*", id := "routes/" ++ toString code
               component := "routes/" ++ toString code ++ ".js", loader := none } }

/-- A JavaScript object used as a string-keyed map (a build manifest): an
association list in insertion order; the stored value is `Option Nat`
(`none` models a stored `undefined`). -/
abbrev Obj := List (String × Option Nat)

/-- Models the read `manifest[entryName]`: the stored value when the key is
present, `undefined` otherwise. -/
def jsGet (m : Obj) (k : String) : Option Nat :=
  match m.find? (fun p => p.1 = k) with
  | none => none
  | some p => p.2

/-- Models the write `memo[entryName] = v`: replace in place when the key
exists, append otherwise.  Assigning `undefined` still creates the key. -/
def jsSet : Obj → String → Option Nat → Obj
  | [], k, v => [(k, v)]
  | p :: rest, k, v => if p.1 = k then (k, v) :: rest else p :: jsSet rest k v

/-- Whether an object has an own property named `k` (distinguishes a key
stored with value `undefined` from an absent key). -/
def hasKey (m : Obj) (k : String) : Bool :=
  (m.find? (fun p => p.1 = k)).isSome

/-- Own-property lookup: `some v` when the key is present storing `v`
(possibly `undefined`), `none` when the key is absent. -/
def objLookup (m : Obj) (k : String) : Option (Option Nat) :=
  match m.find? (fun p => p.1 = k) with
  | none => none
  | some p => some p.2

/-- Embedding of `getPartialManifest` (server.ts lines 332-340): reduce over
the entry names, copying `manifest[entryName]` into a fresh empty object. -/
def getPartialManifest (manifest : Obj) (entryNames : List String) : Obj :=
  entryNames.foldl (fun memo entryName => jsSet memo entryName (jsGet manifest entryName)) []

/-- State-instrumented rendering of the same reduce: the accumulator carries
the memo object together with the source manifest, and each step — exactly as
the source's reducer body — writes only the memo and merely reads the
manifest.  Used to express that the slicer does not mutate its source. -/
def getPartialManifestRun (st : Obj × Obj) (entryNames : List String) : Obj × Obj :=
  entryNames.foldl
    (fun acc entryName => (jsSet acc.1 entryName (jsGet acc.2 entryName), acc.2)) st

/-- HTTP response as constructed by `new Response(body, { status, headers })`
in server.ts; the platform's `Response` class itself is external, so only the
fields this layer sets are modelled. -/
structure Response where
  status : Nat
  headers : List (String × String)
  body : String
deriving DecidableEq

/-- Modelled from the spec: the platform `Response`'s effective content type
(`platform.ts` is not under src/).  An explicit `Content-Type` header wins;
per the spec's HTTP response table, a plain string body without one is served
as `text/plain`. -/
def Response.contentTypeOf (r : Response) : String :=
  match r.headers.find? (fun p => p.1 = "Content-Type") with
  | none => "text/plain"
  | some p => p.2

/-- The 403 response shared by the data and patch handlers when the `path`
query parameter is missing (server.ts lines 116-123 and 169-176). -/
def missingPathResponse : Response :=
  { status := 403
    headers := [("Content-Type", "application/json")]
    body := "\x7b\"error\":\"Missing ?path\"\x7d" }

/-- The 404 response of the data handler when `path` matches no route
(server.ts lines 127-134). -/
def noRouteMatchResponse : Response :=
  { status := 404
    headers := [("Content-Type", "application/json")]
    body := "\x7b\"error\":\"No routes matched\"\x7d" }

/-- Modelled from the spec: `createRouteData` of `entry.ts` (not under src/)
— the merged route data, a serializable union of all per-route results keyed
by route id (non-success results contribute an `undefined` payload). -/
def createRouteData (results : List LoaderResult) : List (String × Option Nat) :=
  results.map fun r => (r.routeIdOf, r.dataOf)

/-- Modelled from the spec: `createRouteManifest` of `entry.ts` (not under
src/) — a mapping from route id to the render-relevant route definition of
each match, in match order. -/
def createRouteManifest (ms : List RouteMatch) : List (String × Route) :=
  ms.map fun mt => (mt.route.id, mt.route)

/-- Modelled from the spec: `createRouteParams` of `entry.ts` (not under
src/) — a mapping from route id to the matched URL params. -/
def createRouteParams (ms : List RouteMatch) : List (String × List (String × String)) :=
  ms.map fun mt => (mt.route.id, mt.params)

/-- Modelled from the spec: the Full load strategy of `loader.ts` (not under
src/) — one result per match, index-aligned: a route without a loader yields
`Success(null)` implicitly, a route with a loader is invoked.  The external
loader functions are abstracted by the oracle `runLoader`. -/
def invokeLoader (runLoader : RouteMatch → Location → LoaderResult)
    (mt : RouteMatch) (location : Location) : LoaderResult :=
  match mt.route.loader with
  | none => .success mt.route.id none
  | some _ => runLoader mt location

/-- Modelled from the spec: `loadData` of `loader.ts` (not under src/) — run
the loader of every matched route; the result list is index-aligned with the
match list regardless of the completion order of the concurrent calls, so the
concurrent fan-out/fan-in is modelled as a map. -/
def loadData (runLoader : RouteMatch → Location → LoaderResult)
    (ms : List RouteMatch) (location : Location) : List LoaderResult :=
  ms.map fun mt => invokeLoader runLoader mt location

/-- A per-route outcome of the diff load strategy: either a freshly
(re-)invoked loader result, or the sentinel for a route whose data is
unchanged and whose loader was not re-invoked. -/
inductive DataResult where
  | fresh (result : LoaderResult)
  | unchanged (routeId : String)
deriving DecidableEq

/-- The route id a diff-load outcome belongs to. -/
def DataResult.ridOf : DataResult → String
  | .fresh r => r.routeIdOf
  | .unchanged rid => rid

/-- Modelled from the spec: `loadDataDiff` of `loader.ts` (not under src/) —
given the new match list and the previous match list, a route whose
`(route.id, loader identity)` is found at the same position in the previous
list short-circuits to the unchanged sentinel; every other route is
(re-)invoked as in the full load strategy. -/
def loadDataDiff (runLoader : RouteMatch → Location → LoaderResult) :
    List RouteMatch → List RouteMatch → Location → List DataResult
  | [], _, _ => []
  | mt :: rest, [], location =>
    .fresh (invokeLoader runLoader mt location) :: loadDataDiff runLoader rest [] location
  | mt :: rest, old :: oldRest, location =>
    (if old.route.id = mt.route.id ∧ old.route.loader = mt.route.loader then
      DataResult.unchanged mt.route.id
    else
      DataResult.fresh (invokeLoader runLoader mt location))
      :: loadDataDiff runLoader rest oldRest location

/-- Modelled from the spec: `createRouteDataResults` of `entry.ts` (not under
src/) — per-route result summaries keyed by route id, in match order. -/
def createRouteDataResults (results : List DataResult) : List (String × DataResult) :=
  results.map fun r => (r.ridOf, r)

/-- Serialization of a nullable numeric payload, for `JSON.stringify`
modelling. -/
def encodeOptNat : Option Nat → String
  | none => "null"
  | some n => toString n

/-- Models `JSON.stringify` of one per-route result summary. -/
def encodeDataResult : DataResult → String
  | .fresh (.success rid d) =>
    "\x7b\"routeId\":\"" ++ rid ++ "\",\"kind\":\"data\",\"data\":" ++ encodeOptNat d ++ "\x7d"
  | .fresh (.redirect rid loc st) =>
    "\x7b\"routeId\":\"" ++ rid ++ "\",\"kind\":\"redirect\",\"to\":\"" ++ loc
      ++ "\",\"status\":" ++ toString st ++ "\x7d"
  | .fresh (.error rid msg st) =>
    "\x7b\"routeId\":\"" ++ rid ++ "\",\"kind\":\"error\",\"message\":\"" ++ msg
      ++ "\",\"status\":" ++ toString st ++ "\x7d"
  | .fresh (.changeStatusCode rid st) =>
    "\x7b\"routeId\":\"" ++ rid ++ "\",\"kind\":\"status\",\"status\":" ++ toString st ++ "\x7d"
  | .unchanged rid =>
    "\x7b\"routeId\":\"" ++ rid ++ "\",\"kind\":\"unchanged\"\x7d"

/-- Models `JSON.stringify(dataResults)` for the data endpoint's 200 body. -/
def encodeDataResults (entries : List (String × DataResult)) : String :=
  "[" ++ String.intercalate "," (entries.map fun p => encodeDataResult p.2) ++ "]"

/-- Serialization of one manifest entry for `JSON.stringify` modelling. -/
def encodeManifestEntry (p : String × Option Nat) : String :=
  "\"" ++ p.1 ++ "\":" ++ encodeOptNat p.2

/-- Models `JSON.stringify({ build, routes })` for the patch endpoint's 200
body. -/
def encodePatchPayload (build : Obj) (routes : List (String × Route)) : String :=
  "\x7b\"build\":\x7b" ++ String.intercalate "," (build.map encodeManifestEntry)
    ++ "\x7d,\"routes\":[" ++ String.intercalate "," (routes.map fun p => "\"" ++ p.1 ++ "\"")
    ++ "]\x7d"

/-- The collaborators a request handler closes over: the route matcher with
the configured route tree baked in (`matchRoutes(config.routes, ·)`), the
external per-route loader functions abstracted as an oracle, the browser
build manifest, and the configured public path. -/
structure Collab where
  matchRoutes : String → Option (List RouteMatch)
  runLoader : RouteMatch → Location → LoaderResult
  browserManifest : Obj
  publicPath : String

/-- The client-visible entry context assembled at server.ts lines 293-311 and
handed to the external render hook.  The source additionally attaches a
script-escaped serialization of these same fields and a synchronous
route-module accessor (lines 313-327); both are derived from this record and
the route-modules table, and are not separately modelled. -/
structure EntryContext where
  browserManifest : Obj
  matchedRouteIds : List String
  publicPath : String
  routeManifest : List (String × Route)
  routeData : List (String × Option Nat)
  routeParams : List (String × List (String × String))
deriving DecidableEq

/-- Embedding of the shared context-assembly tail of `handleHtmlRequest`
(server.ts lines 293-311): matched route ids, route data from the loader
results, route manifest and params from the final match list, and the browser
manifest sliced to the browser entry point plus the matched route ids. -/
def mkEntryContext (bm : Obj) (publicPath : String)
    (ms : List RouteMatch) (results : List LoaderResult) : EntryContext :=
  { browserManifest := getPartialManifest bm ("__entry_browser__" :: ms.map fun mt => mt.route.id)
    matchedRouteIds := ms.map fun mt => mt.route.id
    publicPath := publicPath
    routeManifest := createRouteManifest ms
    routeData := createRouteData results
    routeParams := createRouteParams ms }

/-- Outcome of the HTML handler: either an early HTTP response (the redirect
short-circuit), or the invocation of the external render hook
`serverEntryModule.default(req, statusCode, entryContext)`, modelled by the
pair of arguments the hook receives. -/
inductive HtmlResult where
  | response (res : Response)
  | render (statusCode : Nat) (ctx : EntryContext)
deriving DecidableEq

/-- Embedding of the result-scanning branch of `handleHtmlRequest`
(server.ts lines 236-290) followed by the shared assembly tail: first result
that is a Redirect short-circuits to an HTTP redirect response; else the
first Error replaces the match list with the synthetic `routes/500` match and
sets the status; else the first ChangeStatusCode replaces them with
`routes/<code>`; else status 200 with the real matches. -/
def htmlWithResults (c : Collab) (location : Location)
    (ms : List RouteMatch) (results : List LoaderResult) : HtmlResult :=
  match results.find? (fun r => r.isRedirect) with
  | some r =>
    .response
      { status := r.httpStatusOf
        headers := [("Location", r.locationOf)]
        body := "Redirecting to " ++ r.locationOf }
  | none =>
    match results.find? (fun r => r.isError) with
    | some e =>
      .render e.httpStatusOf
        (mkEntryContext c.browserManifest c.publicPath [synthetic500 location.pathname] results)
    | none =>
      match results.find? (fun r => r.isChangeStatusCode) with
      | some sc =>
        .render sc.httpStatusOf
          (mkEntryContext c.browserManifest c.publicPath
            [syntheticStatusRoute sc.httpStatusOf location.pathname] results)
      | none =>
        .render 200 (mkEntryContext c.browserManifest c.publicPath ms results)

/-- Embedding of `handleHtmlRequest` (server.ts lines 207-330): match the
full request URL; on no match substitute the synthetic `routes/404` match
with status 404 and an empty loader-result list; on a match run the full load
strategy and scan the results. -/
def handleHtmlRequest (c : Collab) (req : Request) : HtmlResult :=
  match c.matchRoutes req.url with
  | none =>
    .render 404
      (mkEntryContext c.browserManifest c.publicPath
        [synthetic404 (createLocation req.url).pathname] [])
  | some ms =>
    htmlWithResults c (createLocation req.url) ms
      (loadData c.runLoader ms (createLocation req.url))

/-- The data endpoint's 200 response (server.ts lines 152-159). -/
def dataSuccessResponse (results : List DataResult) : Response :=
  { status := 200
    headers := [("Content-Type", "application/json")]
    body := encodeDataResults (createRouteDataResults results) }

/-- Embedding of `handleDataRequest` (server.ts lines 104-160): a falsy
`path` query parameter is rejected with 403 before any route matching; a
`path` matching no route yields 404 JSON; a truthy `from` runs the diff load
strategy against the `from` match list (or the empty list when `from` matches no
route, `matchRoutes(...) || []`), otherwise the full load strategy runs. -/
def handleDataRequest (c : Collab) (req : Request) : Response :=
  if isTruthyStr (searchGet (createLocation req.url).search "path") = false then
    missingPathResponse
  else
    match c.matchRoutes ((searchGet (createLocation req.url).search "path").getD "") with
    | none => noRouteMatchResponse
    | some ms =>
      dataSuccessResponse
        (if isTruthyStr (searchGet (createLocation req.url).search "from") = true then
          loadDataDiff c.runLoader ms
            ((c.matchRoutes ((searchGet (createLocation req.url).search "from").getD "")).getD [])
            (createLocation req.url)
        else
          (loadData c.runLoader ms (createLocation req.url)).map DataResult.fresh)

/-- Embedding of `handlePatchRequest` (server.ts lines 162-205): a falsy
`path` is rejected with 403 before any route matching; no match yields a 404
response whose body is `No matches found for <path>` and which sets no
headers; otherwise the browser manifest is sliced to exactly the matched
route ids (no browser entry point added) and returned with the route
manifest as JSON. -/
def handlePatchRequest (c : Collab) (req : Request) : Response :=
  if isTruthyStr (searchGet (createLocation req.url).search "path") = false then
    missingPathResponse
  else
    match c.matchRoutes ((searchGet (createLocation req.url).search "path").getD "") with
    | none =>
      { status := 404
        headers := []
        body := "No matches found for " ++ (searchGet (createLocation req.url).search "path").getD "" }
    | some ms =>
      { status := 200
        headers := [("Content-Type", "application/json")]
        body := encodePatchPayload
          (getPartialManifest c.browserManifest (ms.map fun mt => mt.route.id))
          (createRouteManifest ms) }

/-- Embedding of the dispatcher body of the handler returned by
`createRequestHandler` (server.ts lines 63-76): classification by raw URL
prefix, in order — data endpoint, patch endpoint, HTML navigation. -/
def handleRequest (c : Collab) (req : Request) : HtmlResult :=
  if req.url.startsWith "/__remix_data" then .response (handleDataRequest c req)
  else if req.url.startsWith "/__remix_patch" then .response (handlePatchRequest c req)
  else handleHtmlRequest c req

/-- A server initialization snapshot (`RemixServerInit`), collapsed to what
the development-mode dispatcher logic observes: which initialization it is
(`generation`, fresh per `initializeServer` call) and the configured root
directory used to key the module-cache purge. -/
structure ServerInit where
  generation : Nat
  rootDirectory : String
deriving DecidableEq

/-- Models one `initializeServer(remixRoot)` call producing a fresh snapshot:
the config read is collapsed to taking the root directory, and `gen` is the
fresh generation distinguishing this snapshot from previous ones. -/
def initServer (gen : Nat) (root : String) : ServerInit :=
  { generation := gen, rootDirectory := root }

/-- The process-wide state the development-mode branch manipulates: the value
the current `initPromise` resolves to, the next fresh generation, and the log
of `purgeRequireCache` calls in order. -/
structure DevState where
  pendingInit : ServerInit
  nextGen : Nat
  purged : List String
deriving DecidableEq

/-- Embedding of the development-mode prelude of the request handler
(server.ts lines 54-61), promises collapsed to values, one request taken
sequentially: await the cached `initPromise` (line 56), call
`purgeRequireCache(config.rootDirectory)` with the awaited snapshot's root
(line 57), reassign `initPromise` to a fresh `initializeServer` call
(line 58), and then — line 61, `await initPromise` — await the variable as
reassigned, producing the snapshot the current request is served with.
Returns the state after the prelude and that served snapshot. -/
def devDispatchStep (remixRoot : String) (s : DevState) : DevState × ServerInit :=
  let awaited := s.pendingInit
  let s1 : DevState := { s with purged := s.purged ++ [awaited.rootDirectory] }
  let s2 : DevState :=
    { s1 with pendingInit := initServer s1.nextGen remixRoot, nextGen := s1.nextGen + 1 }
  (s2, s2.pendingInit)

/-- Extracts the route data of a rendered entry context (empty for an early
response). -/
def contextRouteData : HtmlResult → List (String × Option Nat)
  | .render _ ctx => ctx.routeData
  | .response _ => []

/-- Extracts the status code handed to the render hook, when the HTML
handler reached it. -/
def renderedStatus : HtmlResult → Option Nat
  | .render st _ => some st
  | .response _ => none

/-- Extracts the matched route ids of a rendered entry context. -/
def contextMatchedIds : HtmlResult → List String
  | .render _ ctx => ctx.matchedRouteIds
  | .response _ => []

/-- Scanning a list whose leading segment satisfies the predicate nowhere
starts the search in the remainder. -/
theorem find_false_append {α : Type} (p : α → Bool) (pre rest : List α)
    (h : ∀ x ∈ pre, p x = false) :
    (pre ++ rest).find? p = rest.find? p := by
  induction pre with
  | nil => rfl
  | cons a t ih =>
    have ha : p a = false := h a (List.mem_cons_self a t)
    rw [List.cons_append, List.find?_cons_of_neg _ (by simp [ha])]
    exact ih fun x hx => h x (List.mem_cons_of_mem a hx)

/-- Own-property lookup after a JavaScript assignment. -/
theorem objLookup_jsSet (m : Obj) (k : String) (v : Option Nat) (k2 : String) :
    objLookup (jsSet m k v) k2 = if k2 = k then some v else objLookup m k2 := by
  induction m with
  | nil =>
    by_cases h : k2 = k
    · subst h; simp [jsSet, objLookup, List.find?]
    · have h1 : ¬k = k2 := fun hkk => h hkk.symm
      simp [jsSet, objLookup, List.find?, h, h1]
  | cons p rest ih =>
    by_cases hp : p.1 = k
    · by_cases h : k2 = k
      · subst h; simp [jsSet, objLookup, List.find?, hp]
      · have h1 : ¬k = k2 := fun hkk => h hkk.symm
        have hp2 : ¬p.1 = k2 := fun hq => h (hp.symm.trans hq).symm
        simp [jsSet, objLookup, List.find?, hp, h, h1, hp2]
    · by_cases h2 : p.1 = k2
      · have hk2 : ¬k2 = k := fun hh => hp (h2.trans hh)
        simp [jsSet, objLookup, List.find?, hp, h2, hk2]
      · by_cases h : k2 = k
        · subst h
          simp [jsSet, objLookup, List.find?, hp, h2] at ih ⊢
          exact ih
        · simp [jsSet, objLookup, List.find?, hp, h2, h] at ih ⊢
          exact ih

/-- Key-presence agrees with own-property lookup. -/
theorem hasKey_isSome (m : Obj) (k : String) :
    hasKey m k = (objLookup m k).isSome := by
  unfold hasKey objLookup
  cases h : m.find? (fun p => p.1 = k) <;> simp [h]

/-- Lookup through the manifest-slicing reduce: a key in the entry-name list
reads the source manifest's value, any other key falls through to the initial
accumulator. -/
theorem objLookup_slice_foldl (m : Obj) (k : String) :
    ∀ (ns : List String) (memo : Obj),
      objLookup (ns.foldl (fun mm n => jsSet mm n (jsGet m n)) memo) k
        = if k ∈ ns then some (jsGet m k) else objLookup memo k := by
  intro ns
  induction ns with
  | nil => intro memo; simp
  | cons n t ih =>
    intro memo
    rw [List.foldl_cons, ih]
    by_cases hk : k ∈ t
    · simp [hk, List.mem_cons]
    · by_cases hn : k = n
      · subst hn
        simp [hk, List.mem_cons, objLookup_jsSet]
      · simp [hk, hn, List.mem_cons, objLookup_jsSet]

/-- The instrumented slicing reduce never writes its source manifest. -/
theorem sliceRun_snd (m : Obj) :
    ∀ (ns : List String) (st : Obj × Obj), st.2 = m →
      (getPartialManifestRun st ns).2 = m := by
  intro ns
  induction ns with
  | nil => intro st h; exact h
  | cons n t ih =>
    intro st h
    rw [getPartialManifestRun, List.foldl_cons]
    exact ih _ h

/-- The instrumented slicing reduce computes the same memo object as
`getPartialManifest`'s reduce from any initial memo. -/
theorem sliceRun_fst (m : Obj) :
    ∀ (ns : List String) (memo : Obj),
      (getPartialManifestRun (memo, m) ns).1
        = ns.foldl (fun mm n => jsSet mm n (jsGet m n)) memo := by
  intro ns
  induction ns with
  | nil => intro memo; rfl
  | cons n t ih =>
    intro memo
    rw [getPartialManifestRun, List.foldl_cons, List.foldl_cons]
    exact ih _

/-- Diffing against an empty previous match list re-invokes every route. -/
theorem loadDataDiff_nil_prev (rl : RouteMatch → Location → LoaderResult)
    (loc : Location) :
    ∀ ms : List RouteMatch,
      loadDataDiff rl ms [] loc = ms.map fun mt => .fresh (invokeLoader rl mt loc) := by
  intro ms
  induction ms with
  | nil => rfl
  | cons mt rest ih => rw [loadDataDiff, ih, List.map_cons]

/-- Shared shape of the HTML handler's error branch: when the URL matches,
no result is a redirect, and some result is an error, the handler renders
with the first error's status over the synthetic `routes/500` match and the
unchanged loader-result list. -/
theorem html_error_case (c : Collab) (req : Request) (ms : List RouteMatch)
    (e : LoaderResult)
    (hm : c.matchRoutes req.url = some ms)
    (hnr : ∀ x ∈ loadData c.runLoader ms (createLocation req.url), x.isRedirect = false)
    (he : (loadData c.runLoader ms (createLocation req.url)).find?
            (fun r => r.isError) = some e) :
    handleHtmlRequest c req =
      .render e.httpStatusOf
        (mkEntryContext c.browserManifest c.publicPath
          [synthetic500 (createLocation req.url).pathname]
          (loadData c.runLoader ms (createLocation req.url))) := by
  have hfr : (loadData c.runLoader ms (createLocation req.url)).find?
      (fun r => r.isRedirect) = none := by
    rw [List.find?_eq_none]
    intro x hx
    simp [hnr x hx]
  simp only [handleHtmlRequest, hm, htmlWithResults, hfr, he]

/-- C1 (amended): in development mode the request handler (a) awaits the
currently cached initialization, (b) purges the cached compiled-route state
keyed by that snapshot's root directory, and (c) starts a fresh
initialization, stores it as the cached one, and then awaits it — so the
request currently being served is handled with the freshly started
initialization (which is also what the next request will find cached), not
with the snapshot awaited before the purge. -/
theorem dev_dispatch_serves_fresh_init (root : String) (s : DevState)
    (h : s.pendingInit.generation ≠ s.nextGen) :
    (devDispatchStep root s).2 = initServer s.nextGen root
    ∧ (devDispatchStep root s).1.pendingInit = (devDispatchStep root s).2
    ∧ (devDispatchStep root s).1.purged = s.purged ++ [s.pendingInit.rootDirectory]
    ∧ (devDispatchStep root s).2 ≠ s.pendingInit := by
  refine ⟨rfl, rfl, rfl, ?_⟩
  intro hcontra
  exact h (congrArg ServerInit.generation hcontra).symm

/-- Witness for C1's amended theorem at a concrete development state. -/
theorem dev_dispatch_serves_fresh_init_witness :
    (devDispatchStep "app" ⟨⟨0, "app"⟩, 1, []⟩).2 = initServer 1 "app"
    ∧ (devDispatchStep "app" ⟨⟨0, "app"⟩, 1, []⟩).1.pendingInit
        = (devDispatchStep "app" ⟨⟨0, "app"⟩, 1, []⟩).2
    ∧ (devDispatchStep "app" ⟨⟨0, "app"⟩, 1, []⟩).1.purged = [] ++ ["app"]
    ∧ (devDispatchStep "app" ⟨⟨0, "app"⟩, 1, []⟩).2 ≠ (⟨0, "app"⟩ : ServerInit) :=
  dev_dispatch_serves_fresh_init "app" ⟨⟨0, "app"⟩, 1, []⟩ (by decide)

/-- C1 counterexample: at a concrete development state (cached snapshot of
generation 0, next fresh generation 1) the snapshot the request is served
with — `await initPromise` at server.ts line 61, after the reassignment at
line 58 — is not the snapshot awaited before the purge, refuting the claim
that the request is handled with the pre-purge snapshot and that the fresh
initialization is not awaited. -/
theorem dev_pre_purge_snapshot_counterexample :
    (devDispatchStep "app" ⟨⟨0, "app"⟩, 1, []⟩).2 ≠ (⟨0, "app"⟩ : ServerInit) := by
  decide

/-- C2: for every HTML request whose loader-result list contains a Redirect,
the handler short-circuits to an HTTP response whose status is the first
Redirect's httpStatus, whose Location header is its location, and whose body
is `Redirecting to <location>`; the first Redirect in result order (which is
match-list order) wins, and neither manifest slicing nor the render hook is
reached (the outcome is an early `response`, not a `render`). -/
theorem html_redirect_short_circuit (c : Collab) (req : Request)
    (ms : List RouteMatch) (pre post : List LoaderResult) (r : LoaderResult)
    (hm : c.matchRoutes req.url = some ms)
    (hres : loadData c.runLoader ms (createLocation req.url) = pre ++ r :: post)
    (hpre : ∀ x ∈ pre, x.isRedirect = false)
    (hr : r.isRedirect = true) :
    handleHtmlRequest c req =
      .response
        { status := r.httpStatusOf
          headers := [("Location", r.locationOf)]
          body := "Redirecting to " ++ r.locationOf } := by
  simp only [handleHtmlRequest, hm, htmlWithResults, hres]
  rw [find_false_append _ _ _ hpre, List.find?_cons_of_pos _ hr]

/-- Collaborators for the C2 witness: two matched routes whose second loader
redirects to /login with status 302. -/
def c2col : Collab :=
  { matchRoutes := fun u =>
      if u = "/dash" then
        some [⟨"/dash", [], ⟨"dash", "routes/a", "a.js", some 1⟩⟩,
              ⟨"/dash", [], ⟨"dash/b", "routes/b", "b.js", some 2⟩⟩]
      else none
    runLoader := fun mt _ =>
      if mt.route.id = "routes/a" then .success "routes/a" (some 1)
      else .redirect "routes/b" "/login" 302
    browserManifest := [("__entry_browser__", some 0)]
    publicPath := "/build/" }

/-- Witness for C2 at a concrete two-route request whose second loader
redirects. -/
theorem html_redirect_short_circuit_witness :
    handleHtmlRequest c2col ⟨"/dash"⟩ =
      .response { status := 302, headers := [("Location", "/login")]
                  body := "Redirecting to /login" } :=
  html_redirect_short_circuit c2col ⟨"/dash"⟩
    [⟨"/dash", [], ⟨"dash", "routes/a", "a.js", some 1⟩⟩,
     ⟨"/dash", [], ⟨"dash/b", "routes/b", "b.js", some 2⟩⟩]
    [.success "routes/a" (some 1)] [] (.redirect "routes/b" "/login" 302)
    (by decide) (by decide) (by decide) (by decide)

/-- C3: for every HTML request whose loader-result list contains no Redirect
but some Error, the handler renders with the first Error's httpStatus and the
match list replaced wholesale by the single synthetic `routes/500` match —
regardless of any ChangeStatusCode result also present, since the
status-code-change scan only runs when the error scan finds nothing. -/
theorem html_error_priority (c : Collab) (req : Request)
    (ms : List RouteMatch) (e : LoaderResult)
    (hm : c.matchRoutes req.url = some ms)
    (hnr : ∀ x ∈ loadData c.runLoader ms (createLocation req.url), x.isRedirect = false)
    (he : (loadData c.runLoader ms (createLocation req.url)).find?
            (fun r => r.isError) = some e) :
    handleHtmlRequest c req =
      .render e.httpStatusOf
        (mkEntryContext c.browserManifest c.publicPath
          [synthetic500 (createLocation req.url).pathname]
          (loadData c.runLoader ms (createLocation req.url)))
    ∧ contextMatchedIds (handleHtmlRequest c req) = ["routes/500"]
    ∧ renderedStatus (handleHtmlRequest c req) = some e.httpStatusOf := by
  have h1 := html_error_case c req ms e hm hnr he
  refine ⟨h1, ?_, ?_⟩ <;> rw [h1] <;> rfl

/-- Collaborators for the C3 witness: one loader independently overrides the
status code to 201 while the other errors with status 500. -/
def c3col : Collab :=
  { matchRoutes := fun u =>
      if u = "/dash" then
        some [⟨"/dash", [], ⟨"dash", "routes/a", "a.js", some 1⟩⟩,
              ⟨"/dash", [], ⟨"dash/b", "routes/b", "b.js", some 2⟩⟩]
      else none
    runLoader := fun mt _ =>
      if mt.route.id = "routes/a" then .changeStatusCode "routes/a" 201
      else .error "routes/b" "boom" 500
    browserManifest := [("__entry_browser__", some 0)]
    publicPath := "/build/" }

/-- Witness for C3 at a concrete request where a ChangeStatusCode(201) result
is present alongside an Error(500) result: the synthetic `routes/500` page
renders at status 500. -/
theorem html_error_priority_witness :
    handleHtmlRequest c3col ⟨"/dash"⟩ =
      .render 500
        (mkEntryContext c3col.browserManifest c3col.publicPath
          [synthetic500 "/dash"]
          [.changeStatusCode "routes/a" 201, .error "routes/b" "boom" 500])
    ∧ contextMatchedIds (handleHtmlRequest c3col ⟨"/dash"⟩) = ["routes/500"]
    ∧ renderedStatus (handleHtmlRequest c3col ⟨"/dash"⟩) = some 500 :=
  html_error_priority c3col ⟨"/dash"⟩
    [⟨"/dash", [], ⟨"dash", "routes/a", "a.js", some 1⟩⟩,
     ⟨"/dash", [], ⟨"dash/b", "routes/b", "b.js", some 2⟩⟩]
    (.error "routes/b" "boom" 500) (by decide) (by decide) (by decide)

/-- C4 (amended): when a loader errors (and none redirects), the real matches
are indeed discarded from the match list — the rendered context's matched
route ids collapse to the single synthetic `routes/500` — but the
loader-result list handed to the context assembly is not cleared, so every
sibling route's Success payload still appears in the entry context's route
data. -/
theorem html_error_keeps_sibling_data (c : Collab) (req : Request)
    (ms : List RouteMatch) (e : LoaderResult) (rid : String) (d : Option Nat)
    (hm : c.matchRoutes req.url = some ms)
    (hnr : ∀ x ∈ loadData c.runLoader ms (createLocation req.url), x.isRedirect = false)
    (he : (loadData c.runLoader ms (createLocation req.url)).find?
            (fun r => r.isError) = some e)
    (hs : LoaderResult.success rid d ∈ loadData c.runLoader ms (createLocation req.url)) :
    contextMatchedIds (handleHtmlRequest c req) = ["routes/500"]
    ∧ (rid, d) ∈ contextRouteData (handleHtmlRequest c req) := by
  have h1 := html_error_case c req ms e hm hnr he
  refine ⟨by rw [h1]; rfl, ?_⟩
  rw [h1]
  show (rid, d) ∈ createRouteData (loadData c.runLoader ms (createLocation req.url))
  exact List.mem_map_of_mem (fun r => (r.routeIdOf, r.dataOf)) hs

/-- Collaborators for the C4 theorems: a parent route whose loader succeeds
with payload 7 next to a child route whose loader errors with status 500. -/
def c4col : Collab :=
  { matchRoutes := fun u =>
      if u = "/dash" then
        some [⟨"/dash", [], ⟨"dash", "routes/a", "a.js", some 1⟩⟩,
              ⟨"/dash", [], ⟨"dash/b", "routes/b", "b.js", some 2⟩⟩]
      else none
    runLoader := fun mt _ =>
      if mt.route.id = "routes/a" then .success "routes/a" (some 7)
      else .error "routes/b" "boom" 500
    browserManifest := [("__entry_browser__", some 0)]
    publicPath := "/build/" }

/-- Witness for C4's amended theorem at the concrete sibling-success
scenario. -/
theorem html_error_keeps_sibling_data_witness :
    contextMatchedIds (handleHtmlRequest c4col ⟨"/dash"⟩) = ["routes/500"]
    ∧ ("routes/a", some 7) ∈ contextRouteData (handleHtmlRequest c4col ⟨"/dash"⟩) :=
  html_error_keeps_sibling_data c4col ⟨"/dash"⟩
    [⟨"/dash", [], ⟨"dash", "routes/a", "a.js", some 1⟩⟩,
     ⟨"/dash", [], ⟨"dash/b", "routes/b", "b.js", some 2⟩⟩]
    (.error "routes/b" "boom" 500) "routes/a" (some 7)
    (by decide) (by decide) (by decide) (by decide)

/-- C4 counterexample: concretely, with a sibling route `routes/a` whose
loader returned `Success(7)` next to an erroring route, the matched route ids
are replaced by `routes/500`, yet the sibling's Success payload still appears
in the entry context's route data — refuting the claim that no sibling
Success payload appears in the context handed to the render hook. -/
theorem html_error_drops_sibling_data_counterexample :
    contextMatchedIds (handleHtmlRequest c4col ⟨"/dash"⟩) = ["routes/500"]
    ∧ ("routes/a", some 7) ∈ contextRouteData (handleHtmlRequest c4col ⟨"/dash"⟩) := by
  decide

/-- C5: an HTML request whose URL matches no route renders the synthetic
`routes/404` match at status 404 with an empty loader-result list (so the
route data is empty), and the outcome is independent of the loader oracle —
no loader runs. -/
theorem html_no_match_renders_404 (c : Collab) (req : Request)
    (h : c.matchRoutes req.url = none) :
    handleHtmlRequest c req =
      .render 404
        (mkEntryContext c.browserManifest c.publicPath
          [synthetic404 (createLocation req.url).pathname] [])
    ∧ contextRouteData (handleHtmlRequest c req) = []
    ∧ contextMatchedIds (handleHtmlRequest c req) = ["routes/404"]
    ∧ ∀ rl2 : RouteMatch → Location → LoaderResult,
        handleHtmlRequest { c with runLoader := rl2 } req = handleHtmlRequest c req := by
  have h1 : handleHtmlRequest c req =
      .render 404
        (mkEntryContext c.browserManifest c.publicPath
          [synthetic404 (createLocation req.url).pathname] []) := by
    simp only [handleHtmlRequest, h]
  refine ⟨h1, by rw [h1]; rfl, by rw [h1]; rfl, ?_⟩
  intro rl2
  have h2 : ({ c with runLoader := rl2 } : Collab).matchRoutes req.url = none := h
  simp only [handleHtmlRequest, h, h2]

/-- Collaborators for the C5 witness: a route tree matching nothing. -/
def c5col : Collab :=
  { matchRoutes := fun _ => none
    runLoader := fun mt _ => .success mt.route.id none
    browserManifest := [("__entry_browser__", some 0)]
    publicPath := "/build/" }

/-- Witness for C5 at a concrete unmatched URL. -/
theorem html_no_match_renders_404_witness :
    handleHtmlRequest c5col ⟨"/nowhere"⟩ =
      .render 404
        (mkEntryContext c5col.browserManifest c5col.publicPath
          [synthetic404 "/nowhere"] [])
    ∧ contextRouteData (handleHtmlRequest c5col ⟨"/nowhere"⟩) = []
    ∧ contextMatchedIds (handleHtmlRequest c5col ⟨"/nowhere"⟩) = ["routes/404"]
    ∧ ∀ rl2 : RouteMatch → Location → LoaderResult,
        handleHtmlRequest { c5col with runLoader := rl2 } ⟨"/nowhere"⟩
          = handleHtmlRequest c5col ⟨"/nowhere"⟩ :=
  html_no_match_renders_404 c5col ⟨"/nowhere"⟩ (by decide)

/-- C6: a request to the data-fetch or manifest-patch endpoint whose query
string lacks the `path` parameter gets the 403 response with Content-Type
application/json and exact body `{"error":"Missing ?path"}`, from both
handlers, independently of the route matcher — no route matching is
attempted. -/
theorem missing_path_param_403 (c : Collab) (req : Request)
    (h : searchGet (createLocation req.url).search "path" = none) :
    handleDataRequest c req = missingPathResponse
    ∧ handlePatchRequest c req = missingPathResponse
    ∧ (∀ mr2 : String → Option (List RouteMatch),
        handleDataRequest { c with matchRoutes := mr2 } req = missingPathResponse
        ∧ handlePatchRequest { c with matchRoutes := mr2 } req = missingPathResponse)
    ∧ missingPathResponse.status = 403
    ∧ missingPathResponse.contentTypeOf = "application/json"
    ∧ missingPathResponse.body = "\x7b\"error\":\"Missing ?path\"\x7d" := by
  refine ⟨?_, ?_, fun mr2 => ⟨?_, ?_⟩, rfl, rfl, rfl⟩ <;>
    simp [handleDataRequest, handlePatchRequest, h, isTruthyStr]

/-- Collaborators for the C6 witness. -/
def c6col : Collab :=
  { matchRoutes := fun _ => some []
    runLoader := fun mt _ => .success mt.route.id none
    browserManifest := []
    publicPath := "/build/" }

/-- Witness for C6 at a concrete data-endpoint request with no query
string. -/
theorem missing_path_param_403_witness :
    handleDataRequest c6col ⟨"/__remix_data"⟩ = missingPathResponse
    ∧ handlePatchRequest c6col ⟨"/__remix_data"⟩ = missingPathResponse :=
  ⟨(missing_path_param_403 c6col ⟨"/__remix_data"⟩ (by decide)).1,
   (missing_path_param_403 c6col ⟨"/__remix_data"⟩ (by decide)).2.1⟩

/-- C7: a patch request whose `path` parameter matches no route gets a 404
response whose body is `No matches found for <path>`; the handler sets no
explicit headers, and the platform serves the plain string body as
text/plain. -/
theorem patch_no_match_404 (c : Collab) (req : Request) (path : String)
    (hp : searchGet (createLocation req.url).search "path" = some path)
    (hne : path ≠ "")
    (hm : c.matchRoutes path = none) :
    handlePatchRequest c req =
      { status := 404, headers := [], body := "No matches found for " ++ path }
    ∧ (handlePatchRequest c req).contentTypeOf = "text/plain" := by
  have h1 : handlePatchRequest c req =
      { status := 404, headers := [], body := "No matches found for " ++ path } := by
    simp [handlePatchRequest, hp, hne, isTruthyStr, hm]
  exact ⟨h1, by rw [h1]; rfl⟩

/-- Collaborators for the C7 witness. -/
def c7col : Collab :=
  { matchRoutes := fun _ => none
    runLoader := fun mt _ => .success mt.route.id none
    browserManifest := []
    publicPath := "/build/" }

/-- Witness for C7 at a concrete patch request for an unmatched path. -/
theorem patch_no_match_404_witness :
    handlePatchRequest c7col ⟨"/__remix_patch?path=/gone"⟩ =
      { status := 404, headers := [], body := "No matches found for " ++ "/gone" }
    ∧ (handlePatchRequest c7col ⟨"/__remix_patch?path=/gone"⟩).contentTypeOf
        = "text/plain" :=
  patch_no_match_404 c7col ⟨"/__remix_patch?path=/gone"⟩ "/gone"
    (by decide) (by decide) (by decide)

/-- C8: the Manifest Slicer's output has exactly the keys of the entry-name
list; each such key stores the untransformed value read from the input
manifest, and an entry name absent from the input manifest is still present
in the output, storing the explicit `undefined` marker rather than being
omitted. -/
theorem manifest_slicer_exact_keys (m : Obj) (ns : List String) (k : String) :
    (hasKey (getPartialManifest m ns) k = true ↔ k ∈ ns)
    ∧ (k ∈ ns → objLookup (getPartialManifest m ns) k = some (jsGet m k)) := by
  have hbase : objLookup (getPartialManifest m ns) k
      = if k ∈ ns then some (jsGet m k) else none := by
    have := objLookup_slice_foldl m k ns []
    simpa [getPartialManifest, objLookup, List.find?] using this
  constructor
  · rw [hasKey_isSome, hbase]
    by_cases hk : k ∈ ns <;> simp [hk]
  · intro hk
    rw [hbase]
    simp [hk]

/-- Witness for C8: slicing a one-entry manifest by a list naming a missing
entry keeps the missing key, stored as the explicit `undefined` marker. -/
theorem manifest_slicer_exact_keys_witness :
    objLookup (getPartialManifest [("a", some 1)] ["a", "miss"]) "miss" = some none :=
  ((manifest_slicer_exact_keys [("a", some 1)] ["a", "miss"] "miss").2
    (by decide)).trans (by decide)

/-- C9: slicing the same manifest with the same entry names twice yields
structurally identical outputs, and — per the instrumented rendering of the
reduce, whose steps write only the memo object — the source manifest is left
unchanged while the memo computed is exactly the slicer's output. -/
theorem manifest_slicer_idempotent (m : Obj) (ns : List String) :
    getPartialManifest m ns = getPartialManifest m ns
    ∧ (getPartialManifestRun ([], m) ns).2 = m
    ∧ (getPartialManifestRun ([], m) ns).1 = getPartialManifest m ns :=
  ⟨rfl, sliceRun_snd m ns ([], m) rfl, (sliceRun_fst m ns []).trans rfl⟩

/-- C10: a data-fetch request whose `from` parameter matches no route is not
rejected: the previous match list is substituted by the empty list
(`matchRoutes(...) || []`), the diff strategy runs against it, the response
is the ordinary 200 JSON of per-route results, and every route matched by
`path` whose loader is present is (re-)invoked. -/
theorem data_from_unmatched_runs_all_loaders (c : Collab) (req : Request)
    (path fromPath : String) (ms : List RouteMatch)
    (hp : searchGet (createLocation req.url).search "path" = some path)
    (hpt : path ≠ "")
    (hf : searchGet (createLocation req.url).search "from" = some fromPath)
    (hft : fromPath ≠ "")
    (hm : c.matchRoutes path = some ms)
    (hfm : c.matchRoutes fromPath = none) :
    handleDataRequest c req =
      dataSuccessResponse
        (ms.map fun mt => .fresh (invokeLoader c.runLoader mt (createLocation req.url)))
    ∧ (handleDataRequest c req).status = 200
    ∧ ∀ mt ∈ ms, mt.route.loader.isSome = true →
        DataResult.fresh (c.runLoader mt (createLocation req.url))
          ∈ loadDataDiff c.runLoader ms [] (createLocation req.url) := by
  have h1 : handleDataRequest c req =
      dataSuccessResponse
        (ms.map fun mt => .fresh (invokeLoader c.runLoader mt (createLocation req.url))) := by
    simp [handleDataRequest, hp, hpt, hf, hft, isTruthyStr, hm, hfm,
      loadDataDiff_nil_prev]
  refine ⟨h1, by rw [h1]; rfl, ?_⟩
  intro mt hmt hloader
  rw [loadDataDiff_nil_prev]
  have hinv : invokeLoader c.runLoader mt (createLocation req.url)
      = c.runLoader mt (createLocation req.url) := by
    cases hl : mt.route.loader with
    | none => rw [hl] at hloader; simp at hloader
    | some l => simp [invokeLoader, hl]
  rw [← hinv]
  exact List.mem_map_of_mem _ hmt

/-- Collaborators for the C10 witness: `/a` matches one loader-bearing route,
`/b` matches nothing. -/
def c10col : Collab :=
  { matchRoutes := fun u =>
      if u = "/a" then some [⟨"/a", [], ⟨"a", "routes/a", "a.js", some 1⟩⟩] else none
    runLoader := fun mt _ => .success mt.route.id (some 5)
    browserManifest := []
    publicPath := "/build/" }

/-- Witness for C10 at a concrete data request whose `from` matches no
route. -/
theorem data_from_unmatched_runs_all_loaders_witness :
    handleDataRequest c10col ⟨"/__remix_data?path=/a&from=/b"⟩ =
      dataSuccessResponse
        ([⟨"/a", [], ⟨"a", "routes/a", "a.js", some 1⟩⟩].map fun mt =>
          .fresh (invokeLoader c10col.runLoader mt
            (createLocation "/__remix_data?path=/a&from=/b")))
    ∧ (handleDataRequest c10col ⟨"/__remix_data?path=/a&from=/b"⟩).status = 200
    ∧ ∀ mt ∈ [(⟨"/a", [], ⟨"a", "routes/a", "a.js", some 1⟩⟩ : RouteMatch)],
        mt.route.loader.isSome = true →
        DataResult.fresh (c10col.runLoader mt (createLocation "/__remix_data?path=/a&from=/b"))
          ∈ loadDataDiff c10col.runLoader [⟨"/a", [], ⟨"a", "routes/a", "a.js", some 1⟩⟩] []
              (createLocation "/__remix_data?path=/a&from=/b") :=
  data_from_unmatched_runs_all_loaders c10col ⟨"/__remix_data?path=/a&from=/b"⟩
    "/a" "/b" [⟨"/a", [], ⟨"a", "routes/a", "a.js", some 1⟩⟩]
    (by decide) (by decide) (by decide) (by decide) (by decide) (by decide)

end Remix
